import Mathlib

/-! # my-go-app: process-level behaviour of `cmd/main.go` and `pkg/utils.go`

The two source files only sequence calls into the Go standard library
(`log.Println`, `log.Fatalf`, `os.Exit`) and into the `App` lifecycle
methods.  The development embeds them as state-passing computations over
an event trace.  A computation either returns to its caller or ends the
process with a status code; in the second case nothing after it runs,
deferred calls included.
-/

namespace MyGoApp

/-! ## Data model -/

/-- How a call of a method of an error value ends, as package `fmt` sees it. -/
inductive MethodResult where
  /-- The method returns the string `s`. -/
  | returns (s : String)
  /-- The method panics; `value` is the text of the panic value under `%v`. -/
  | panics (value : String)
  deriving DecidableEq, Repr

/-- What the call `Format(f, 'v')` does, for an error whose type implements
`fmt.Formatter`. -/
structure FormatCall where
  /-- The text the method writes to `f`. -/
  written : String
  /-- How the method ends: `none` when it returns, otherwise it panics and this is the
  text of the panic value under `%v`. -/
  panic : Option String
  deriving DecidableEq, Repr

/-- A non-nil value of Go's `error` interface, as package `fmt` can observe it: what its
`Error()` method does, whether the value is a nil pointer (a non-nil interface holding a
nil pointer), and what its `Format` method does when its type implements `fmt.Formatter`.
The methods are observed through how they end; they have no effect of their own on the
trace, and a panic value is one that prints. -/
structure ErrorValue where
  /-- How the call `Error()` ends; the string it returns is the error's message. -/
  Error : MethodResult
  /-- Whether the value is a nil pointer. -/
  nilPointer : Bool
  /-- The `Format` method, `none` when the type does not implement `fmt.Formatter`. -/
  Format : Option FormatCall
  deriving DecidableEq, Repr

/-- An error as `errors.New(msg)` makes it: `Error()` returns `msg`, the value is not a nil
pointer and its type has no `Format` method. -/
def ErrorValue.plain (msg : String) : ErrorValue := ⟨.returns msg, false, none⟩

/-- An error whose `Error()` returns `boom` and whose `Format` method writes `FORMATTED`. -/
def formattedBoom : ErrorValue := ⟨.returns "boom", false, some ⟨"FORMATTED", none⟩⟩

/-- A nil pointer whose `Error()` method panics on the nil receiver. -/
def typedNil : ErrorValue :=
  ⟨.panics "runtime error: invalid memory address or nil pointer dereference", true, none⟩

/-- An error whose `Error()` method panics with the value `kaput`. -/
def panickingError : ErrorValue := ⟨.panics "kaput", false, none⟩

/-- A value of Go's `error` interface: `none` is `nil`. -/
abbrev GoError := Option ErrorValue

/-- An operand of type `any` handed to the formatting functions. -/
inductive Value where
  | str (s : String)
  | err (e : GoError)
  deriving DecidableEq, Repr

/-- The observable events of a run. -/
inductive Event where
  /-- One logging event of the standard logger: `std.Output(_, text)`. -/
  | output (text : String)
  /-- The call `application.Start()` is entered. -/
  | startCall
  /-- The call `application.Start()` returns `r`. -/
  | startReturn (r : GoError)
  /-- The call `application.Stop()` is entered. -/
  | stopCall
  /-- The call `application.Stop()` returns. -/
  | stopReturn
  deriving DecidableEq, Repr

/-- The events of a run, oldest first. -/
abbrev Trace := List Event

/-- How a computation ends. -/
inductive Outcome (α : Type) where
  /-- The callee returns `a` to its caller. -/
  | returned (a : α) (t : Trace)
  /-- The process ends with status `code`; no further statement and no deferred call runs. -/
  | exited (code : Nat) (t : Trace)
  /-- The computation used a formatting directive outside the modelled fragment of package `fmt`. -/
  | unmodelled
  deriving DecidableEq, Repr

/-- A Go computation: from the trace so far to its outcome. -/
def Proc (α : Type) : Type := Trace → Outcome α

/-- Sequencing: the continuation runs only when the first computation returns. -/
def Proc.bind {α β : Type} (m : Proc α) (f : α → Proc β) : Proc β := fun t =>
  match m t with
  | .returned a t1 => f a t1
  | .exited code t1 => .exited code t1
  | .unmodelled => .unmodelled

/-- Returning a value without any effect. -/
def Proc.pure {α : Type} (a : α) : Proc α := fun t => .returned a t

instance : Monad Proc where
  pure := Proc.pure
  bind := Proc.bind

/-- The trace an outcome ends with (empty for an unmodelled one). -/
def Outcome.trace {α : Type} : Outcome α → Trace
  | .returned _ t => t
  | .exited _ t => t
  | .unmodelled => []

/-- The texts of the logging events of a trace, oldest first. -/
def logEntries : Trace → List String
  | [] => []
  | .output s :: t => s :: logEntries t
  | _ :: t => logEntries t

/-! ## Package `fmt` (the fragment the program uses) -/

namespace fmt

/-- Go's `catchPanic`, what is printed after a method of the operand panicked: `<nil>`
when the operand is a nil pointer, otherwise `%!` and the verb, `(PANIC=`, the name of the
method, ` method: `, the panic value and `)`. -/
def catchPanic (nilPointer : Bool) (verb : Char) (method value : String) : String :=
  if nilPointer then "<nil>"
  else "%!" ++ String.singleton verb ++ "(PANIC=" ++ method ++ " method: " ++ value ++ ")"

/-- Go's `handleMethods` on an operand of interface type `error` under the verb `%v`.  A
`fmt.Formatter` comes first: its `Format` method prints the operand.  Otherwise the string
`Error()` returns is printed.  A panic of either method is caught by `catchPanic`. -/
def handleMethods (e : ErrorValue) : String :=
  match e.Format with
  | some f =>
    match f.panic with
    | none => f.written
    | some value => f.written ++ catchPanic e.nilPointer 'v' "Format" value
  | none =>
    match e.Error with
    | .returns s => s
    | .panics value => catchPanic e.nilPointer 'v' "Error" value

/-- The text of an operand under the verb `%v`: a string prints as itself, a non-nil
error prints through `handleMethods`, a nil operand prints as `<nil>`. -/
def formatV : Value → String
  | .str s => s
  | .err (some e) => handleMethods e
  | .err none => "<nil>"

/-- Go's `doPrintf` on the fragment with the directives `%v` and `%%`: ordinary
characters are copied, `%%` prints a percent sign, `%v` consumes one operand and
prints `%!v(MISSING)` when none is left, a `%` that ends the format prints
`%!(NOVERB)`.  Any other directive, and operands left over at the end, give `none`. -/
def doPrintf : List Char → List Value → Option (List Char)
  | [], [] => some []
  | [], _ :: _ => none
  | c :: rest, args =>
    if c ≠ '%' then (doPrintf rest args).map (c :: ·)
    else
      match rest, args with
      | [], [] => some "%!(NOVERB)".data
      | [], _ :: _ => none
      | v :: rest1, args =>
        if v = '%' then (doPrintf rest1 args).map ('%' :: ·)
        else if v = 'v' then
          match args with
          | [] => (doPrintf rest1 []).map ("%!v(MISSING)".data ++ ·)
          | a :: args1 => (doPrintf rest1 args1).map ((formatV a).data ++ ·)
        else none

/-- Go's `fmt.Sprintf(format, a...)`. -/
def Sprintf (format : String) (a : List Value) : Option String :=
  (doPrintf format.data a).map String.mk

/-- Go's `doPrintln`: every operand under `%v`, a space between operands, a newline at the end. -/
def doPrintln : List Value → List Char
  | [] => ['\n']
  | [a] => (formatV a).data ++ ['\n']
  | a :: b :: rest => (formatV a).data ++ ' ' :: doPrintln (b :: rest)

/-- Go's `fmt.Sprintln(a...)`. -/
def Sprintln (a : List Value) : String := String.mk (doPrintln a)

end fmt

/-! ## Package `os` -/

namespace os

/-- Go's `os.Exit(code)`: the program ends at once with the given status; deferred
functions are not run. -/
def Exit (code : Nat) : Proc Unit := fun t => .exited code t

end os

/-! ## Package `log` (standard logger) -/

namespace log

/-- Go's `std.Output(calldepth, s)`: one logging event whose text is `s`. -/
def Output (s : String) : Proc Unit := fun t => .returned () (t ++ [.output s])

/-- The line the standard logger writes for a logging event with text `s`: the header
(the timestamp, taken from the clock), then `s`, then a newline unless `s` already ends
with one. -/
def formatLine (header s : String) : String :=
  if s.data.getLast? = some '\n' then header ++ s else header ++ s ++ "\n"

/-- Go's `log.Println(v...)` is `std.Output(2, fmt.Sprintln(v...))`. -/
def Println (v : List Value) : Proc Unit :=
  Output (fmt.Sprintln v)

/-- Go's `log.Fatalf(format, v...)` is `std.Output(2, fmt.Sprintf(format, v...))` followed
by `os.Exit(1)`. -/
def Fatalf (format : String) (v : List Value) : Proc Unit :=
  match fmt.Sprintf format v with
  | some s => do
    Output s
    os.Exit 1
  | none => fun _ => .unmodelled

end log

/-! ## `pkg/utils.go` -/

namespace pkg

/-- Source: `func Log(message string)`, whose body is `log.Println(message)`. -/
def Log (message : String) : Proc Unit :=
  log.Println [.str message]

/-- Source: `func HandleError(err error)`; for a non-nil `err`, `log.Fatalf("Error: %v", err)`
and then `os.Exit(1)`. -/
def HandleError (err : GoError) : Proc Unit := do
  if err ≠ none then
    log.Fatalf "Error: %v" [.err err]
    os.Exit 1

/-- The variant of `HandleError` with the statement `os.Exit(1)` removed. -/
def HandleError_withoutExit (err : GoError) : Proc Unit := do
  if err ≠ none then
    log.Fatalf "Error: %v" [.err err]

end pkg

/-! ## `internal/app` and `cmd/main.go` -/

/-- Modelled from the spec: package `internal/app` (the `App` struct with its `Start` and
`Stop` methods) is not among the source files.  The spec gives `Start() -> Result<(), Error>`
and a `Stop()` without result, both without any effect of their own, so the only thing
`main` can observe of an `App` is what `Start` returns; that result is the field below. -/
structure App where
  /-- What `Start()` returns: `none` on success. -/
  startResult : GoError
  deriving DecidableEq, Repr

/-- Modelled from the spec: `Start()` has no effect of its own and reports success or an
error; the call and its return are recorded in the trace. -/
def App.Start (application : App) : Proc GoError := fun t =>
  .returned application.startResult (t ++ [.startCall, .startReturn application.startResult])

/-- Modelled from the spec: `Stop()` has no effect of its own and returns; the call and its
return are recorded in the trace. -/
def App.Stop (_application : App) : Proc Unit := fun t =>
  .returned () (t ++ [.stopCall, .stopReturn])

/-- The calls the program defers. -/
inductive Deferred where
  /-- The statement `defer application.Stop()`. -/
  | stop (application : App)
  deriving DecidableEq, Repr

/-- Running a deferred call. -/
def Deferred.run : Deferred → Proc Unit
  | .stop application => application.Stop

/-- Running the deferred calls of a frame, the most recently deferred first. -/
def runDeferred : List Deferred → Proc Unit
  | [] => Proc.pure ()
  | d :: ds => do
    d.run
    runDeferred ds

/-- A function body: a computation that also maintains the frame's stack of deferred
calls (most recent first). -/
abbrev Body (α : Type) : Type := StateT (List Deferred) Proc α

/-- The statement `defer d`. -/
def defer (d : Deferred) : Body Unit := modify (d :: ·)

/-- Calling a function with body `body`: the body runs on an empty stack of deferred
calls; when it returns, the deferred calls run, then the function returns.  When the body
ends the process, they do not run. -/
def call {α : Type} (body : Body α) : Proc α := do
  let (a, deferred) ← body.run []
  runDeferred deferred
  return a

/-- The body of `func main()`; `application := app.App{}` is the parameter. -/
def mainBody (application : App) : Body Unit := do
  let err ← (application.Start : Proc GoError)
  if err ≠ none then
    (log.Fatalf "Failed to start the application: %v" [.err err] : Proc Unit)
  -- Application logic goes here
  defer (.stop application)

/-- Source: `func main()` of `cmd/main.go`. -/
def main (application : App) : Proc Unit := call (mainBody application)

/-- The exit status of the process whose `main` ended with the given outcome: `0` when
`main` returned, the argument of `os.Exit` otherwise. -/
def exitStatus : Outcome Unit → Option Nat
  | .returned _ _ => some 0
  | .exited code _ => some code
  | .unmodelled => none

/-! ## Auxiliary facts -/

theorem logEntries_append (a b : Trace) : logEntries (a ++ b) = logEntries a ++ logEntries b := by
  induction a with
  | nil => rfl
  | cons x a ih => cases x <;> simp [logEntries, ih]

theorem formatV_plain (e : ErrorValue) (m : String) (hf : e.Format = none)
    (he : e.Error = .returns m) : fmt.formatV (.err (some e)) = m := by
  simp [fmt.formatV, fmt.handleMethods, hf, he]

theorem formatV_formattedBoom : fmt.formatV (.err (some formattedBoom)) = "FORMATTED" := rfl

theorem formatV_typedNil : fmt.formatV (.err (some typedNil)) = "<nil>" := rfl

theorem formatV_panickingError :
    fmt.formatV (.err (some panickingError)) = "%!v(PANIC=Error method: kaput)" := by
  decide

theorem Sprintf_Error (a : Value) :
    fmt.Sprintf "Error: %v" [a] = some ("Error: " ++ fmt.formatV a) := by
  have h : "Error: %v".data = ['E', 'r', 'r', 'o', 'r', ':', ' ', '%', 'v'] := rfl
  simp [fmt.Sprintf, h, fmt.doPrintf]
  apply String.ext
  simp

theorem Sprintf_Failed (a : Value) :
    fmt.Sprintf "Failed to start the application: %v" [a]
      = some ("Failed to start the application: " ++ fmt.formatV a) := by
  have h : "Failed to start the application: %v".data
      = "Failed to start the application: ".data ++ ['%', 'v'] := rfl
  have h1 : "Failed to start the application: ".data
      = ['F', 'a', 'i', 'l', 'e', 'd', ' ', 't', 'o', ' ', 's', 't', 'a', 'r', 't', ' ', 't',
         'h', 'e', ' ', 'a', 'p', 'p', 'l', 'i', 'c', 'a', 't', 'i', 'o', 'n', ':', ' '] := rfl
  simp [fmt.Sprintf, h, h1, fmt.doPrintf]
  apply String.ext
  simp [h1]

theorem Sprintln_str (message : String) : fmt.Sprintln [.str message] = message ++ "\n" := by
  simp [fmt.Sprintln, fmt.doPrintln, fmt.formatV]
  apply String.ext
  simp

theorem Sprintf_missing : fmt.Sprintf "%v" [] = some "%!v(MISSING)" := by
  decide

theorem formatLine_newline (header s : String) :
    log.formatLine header (s ++ "\n") = header ++ s ++ "\n" := by
  simp [log.formatLine, String.append_assoc]

theorem Fatalf_some (format : String) (v : List Value) (s : String)
    (h : fmt.Sprintf format v = some s) (t : Trace) :
    log.Fatalf format v t = .exited 1 (t ++ [.output s]) := by
  simp [log.Fatalf, h, log.Output, os.Exit, bind, Proc.bind]

theorem Fatalf_none (format : String) (v : List Value)
    (h : fmt.Sprintf format v = none) (t : Trace) :
    log.Fatalf format v t = .unmodelled := by
  simp [log.Fatalf, h]

theorem Fatalf_not_returned (format : String) (v : List Value) (t : Trace) (a : Unit)
    (t1 : Trace) : log.Fatalf format v t ≠ .returned a t1 := by
  cases h : fmt.Sprintf format v with
  | none => simp [Fatalf_none format v h]
  | some s => simp [Fatalf_some format v s h]

theorem Log_eq (message : String) (t : Trace) :
    pkg.Log message t = .returned () (t ++ [.output (message ++ "\n")]) := by
  simp [pkg.Log, log.Println, log.Output, Sprintln_str]

theorem HandleError_none (t : Trace) : pkg.HandleError none t = .returned () t := rfl

theorem HandleError_some (e : ErrorValue) (t : Trace) :
    pkg.HandleError (some e) t
      = .exited 1 (t ++ [.output ("Error: " ++ fmt.formatV (.err (some e)))]) := by
  have h := Fatalf_some _ _ _ (Sprintf_Error (.err (some e))) t
  simp [pkg.HandleError, bind, Proc.bind, h]

theorem HandleError_typedNil :
    pkg.HandleError (some typedNil) [] = .exited 1 [.output "Error: <nil>"] := by
  rw [HandleError_some, formatV_typedNil]
  rfl

theorem HandleError_panickingError :
    pkg.HandleError (some panickingError) []
      = .exited 1 [.output "Error: %!v(PANIC=Error method: kaput)"] := by
  rw [HandleError_some, formatV_panickingError]
  rfl

theorem HandleError_withoutExit_none (t : Trace) :
    pkg.HandleError_withoutExit none t = .returned () t := rfl

theorem HandleError_withoutExit_some (e : ErrorValue) (t : Trace) :
    pkg.HandleError_withoutExit (some e) t
      = .exited 1 (t ++ [.output ("Error: " ++ fmt.formatV (.err (some e)))]) := by
  have h := Fatalf_some _ _ _ (Sprintf_Error (.err (some e))) t
  simp [pkg.HandleError_withoutExit, h]

theorem mainBody_failure (e : ErrorValue) (t : Trace) :
    (mainBody ⟨some e⟩).run [] t
      = .exited 1 (t ++ [.startCall, .startReturn (some e),
          .output ("Failed to start the application: " ++ fmt.formatV (.err (some e)))]) := by
  have h := Fatalf_some _ _ _ (Sprintf_Failed (.err (some e)))
    (t ++ [.startCall, .startReturn (some e)])
  simp only [List.append_assoc, List.cons_append, List.nil_append] at h
  simp [mainBody, App.Start, bind, Proc.bind, pure, Proc.pure, StateT.run, StateT.bind,
    StateT.lift, liftM, monadLift, MonadLift.monadLift, h]

theorem main_failure (e : ErrorValue) (t : Trace) :
    main ⟨some e⟩ t
      = .exited 1 (t ++ [.startCall, .startReturn (some e),
          .output ("Failed to start the application: " ++ fmt.formatV (.err (some e)))]) := by
  have h := mainBody_failure e t
  simp only [StateT.run] at h
  simp [main, call, bind, Proc.bind, StateT.run, h]

theorem main_success (t : Trace) :
    main ⟨none⟩ t
      = .returned () (t ++ [.startCall, .startReturn none, .stopCall, .stopReturn]) := by
  have h : main ⟨none⟩ t
      = .returned () ((t ++ [.startCall, .startReturn none]) ++ [.stopCall, .stopReturn]) := rfl
  simpa using h

theorem Exit_after_Output (s : String) (t : Trace) :
    (do log.Output s; os.Exit 1 : Proc Unit) t ≠ log.Output s t := by
  simp [log.Output, os.Exit, bind, Proc.bind]

/-! ## `pkg.HandleError` and `pkg.Log` -/

/-- C1: `HandleError(nil)` is a no-op.  From any trace it returns to its caller with the
trace unchanged: no log entry is written and the process is not ended. -/
theorem HandleError_nil_is_noop (t : Trace) :
    pkg.HandleError none t = .returned () t ∧
    logEntries (pkg.HandleError none t).trace = logEntries t ∧
    ∀ code t1, pkg.HandleError none t ≠ .exited code t1 := by
  simp [HandleError_none, Outcome.trace]

/-- C2: `HandleError(err)` ends the process with status 1 exactly when `err` is non-nil,
it ends the process with any status exactly when `err` is non-nil, and it returns to its
caller exactly when `err` is nil. -/
theorem HandleError_exits_iff_nonnil (err : GoError) (t : Trace) :
    ((∃ t1, pkg.HandleError err t = .exited 1 t1) ↔ err ≠ none) ∧
    ((∃ code t1, pkg.HandleError err t = .exited code t1) ↔ err ≠ none) ∧
    ((∃ t1, pkg.HandleError err t = .returned () t1) ↔ err = none) := by
  cases err with
  | none => simp [HandleError_none]
  | some e => simp [HandleError_some]

theorem HandleError_exits_iff_nonnil_witness :
    (∃ t1, pkg.HandleError (some (.plain "boom")) [] = .exited 1 t1) ∧
    ¬ (∃ t1, pkg.HandleError (some (.plain "boom")) [] = .returned () t1) ∧
    ¬ (∃ code t1, pkg.HandleError none [] = .exited code t1) :=
  ⟨(HandleError_exits_iff_nonnil (some (.plain "boom")) []).1.2 (by simp),
   fun h => absurd ((HandleError_exits_iff_nonnil (some (.plain "boom")) []).2.2.1 h) (by simp),
   fun h => (HandleError_exits_iff_nonnil none []).2.1.1 h rfl⟩

/-- C3 (as amended): for every non-nil error `e`, `HandleError` ends the process with
status 1 after adding exactly one logging event; the log holds one more entry, and its text
is `Error: ` followed by the text package `fmt` prints for `e` under `%v`.  When the type
of `e` has no `Format` method and `Error()` returns the message `m`, that entry is
`Error: ` followed by `m`, so it contains `m`. -/
theorem HandleError_logs_one_entry (e : ErrorValue) (t : Trace) :
    pkg.HandleError (some e) t
      = .exited 1 (t ++ [.output ("Error: " ++ fmt.formatV (.err (some e)))]) ∧
    logEntries (pkg.HandleError (some e) t).trace
      = logEntries t ++ ["Error: " ++ fmt.formatV (.err (some e))] ∧
    (∀ m : String, e.Format = none → e.Error = .returns m →
      pkg.HandleError (some e) t = .exited 1 (t ++ [.output ("Error: " ++ m)]) ∧
      logEntries (pkg.HandleError (some e) t).trace = logEntries t ++ ["Error: " ++ m] ∧
      m.data <:+: ("Error: " ++ m).data) := by
  refine ⟨HandleError_some e t, ?_, fun m hf he => ?_⟩
  · simp [HandleError_some, Outcome.trace, logEntries_append, logEntries]
  · refine ⟨?_, ?_, ⟨"Error: ".data, [], by simp⟩⟩
    · rw [HandleError_some, formatV_plain e m hf he]
    · simp [HandleError_some, formatV_plain e m hf he, Outcome.trace, logEntries_append,
        logEntries]

theorem HandleError_logs_one_entry_witness :
    pkg.HandleError (some (.plain "boom")) [] = .exited 1 ([] ++ [.output ("Error: " ++ "boom")]) ∧
    logEntries (pkg.HandleError (some (.plain "boom")) []).trace
      = logEntries [] ++ ["Error: " ++ "boom"] ∧
    "boom".data <:+: ("Error: " ++ "boom").data :=
  (HandleError_logs_one_entry (.plain "boom") []).2.2 "boom" rfl rfl

/-- C3 as stated fails: the error `formattedBoom` is non-nil and its `Error()` returns
`boom`, yet the one entry `HandleError` writes is `Error: FORMATTED`, which is not
`Error: boom` and does not contain `boom`. -/
theorem HandleError_entry_is_not_message :
    formattedBoom.Error = .returns "boom" ∧
    pkg.HandleError (some formattedBoom) [] = .exited 1 [.output "Error: FORMATTED"] ∧
    logEntries (pkg.HandleError (some formattedBoom) []).trace ≠ ["Error: " ++ "boom"] ∧
    ∀ entry ∈ logEntries (pkg.HandleError (some formattedBoom) []).trace,
      ¬ ("boom".data <:+: entry.data) := by
  have h : pkg.HandleError (some formattedBoom) [] = .exited 1 [.output "Error: FORMATTED"] := by
    rw [HandleError_some, formatV_formattedBoom]
    rfl
  refine ⟨rfl, h, ?_, ?_⟩
  · rw [h]
    decide
  · rw [h]
    decide

/-- C4: for every string `message`, `Log(message)` returns to its caller and does not
end the process. -/
theorem Log_returns (message : String) (t : Trace) :
    (∃ t1, pkg.Log message t = .returned () t1) ∧
    (∀ code t1, pkg.Log message t ≠ .exited code t1) ∧
    pkg.Log message t ≠ .unmodelled := by
  simp [Log_eq]

/-- C7: for every string `message`, `Log(message)` adds exactly one logging event; its
text is `message` itself followed by a newline, the log holds one more entry, and the line
written is the header followed by `message` and one newline.  The message is not read as a
format: `Log("%v")` writes `%v`, where `Sprintf("%v")` gives `%!v(MISSING)`. -/
theorem Log_writes_message_verbatim (message : String) (t : Trace) :
    pkg.Log message t = .returned () (t ++ [.output (message ++ "\n")]) ∧
    logEntries (pkg.Log message t).trace = logEntries t ++ [message ++ "\n"] ∧
    (∀ header : String, log.formatLine header (message ++ "\n") = header ++ message ++ "\n") ∧
    pkg.Log "%v" t = .returned () (t ++ [.output "%v\n"]) ∧
    fmt.Sprintf "%v" [] = some "%!v(MISSING)" := by
  refine ⟨Log_eq message t, ?_, fun header => formatLine_newline header message,
    Log_eq "%v" t, Sprintf_missing⟩
  simp [Log_eq, Outcome.trace, logEntries_append, logEntries]

/-- C10: the statement `os.Exit(1)` of `HandleError` is never reached.  For every error
value and every trace, `HandleError` and the variant without that statement have the same
outcome (same trace, same way of ending, same status); the `log.Fatalf` call before it never
returns, and for a non-nil error it ends the process with status 1. -/
theorem HandleError_exit_unreachable (err : GoError) (t : Trace) :
    pkg.HandleError err t = pkg.HandleError_withoutExit err t ∧
    (∀ a t1, log.Fatalf "Error: %v" [.err err] t ≠ .returned a t1) ∧
    (∀ e : ErrorValue, ∃ t1, log.Fatalf "Error: %v" [.err (some e)] t = .exited 1 t1) := by
  refine ⟨?_, fun a t1 => Fatalf_not_returned _ _ t a t1,
    fun e => ⟨_, Fatalf_some _ _ _ (Sprintf_Error (.err (some e))) t⟩⟩
  cases err with
  | none => rfl
  | some e => rw [HandleError_some, HandleError_withoutExit_some]

/-! ## `main` -/

/-- C5 (as amended): when `Start` returns a non-nil error `e`, `main` writes exactly one
log entry, `Failed to start the application: ` followed by the text package `fmt` prints
for `e` under `%v`, and the process ends with status 1.  When the type of `e` has no
`Format` method and `Error()` returns the message `m`, that entry is
`Failed to start the application: ` followed by `m`, so it contains `m`. -/
theorem main_failure_logs_and_exits (application : App) (e : ErrorValue)
    (h : application.startResult = some e) (t : Trace) :
    logEntries (main application t).trace
      = logEntries t ++ ["Failed to start the application: " ++ fmt.formatV (.err (some e))] ∧
    exitStatus (main application t) = some 1 ∧
    (∀ m : String, e.Format = none → e.Error = .returns m →
      "Failed to start the application: " ++ m ∈ logEntries (main application t).trace ∧
      logEntries (main application t).trace
        = logEntries t ++ ["Failed to start the application: " ++ m] ∧
      m.data <:+: ("Failed to start the application: " ++ m).data) := by
  obtain ⟨r⟩ := application
  subst h
  refine ⟨?_, ?_, fun m hf he => ⟨?_, ?_, ⟨"Failed to start the application: ".data, [], ?_⟩⟩⟩
  · simp [main_failure, Outcome.trace, logEntries_append, logEntries]
  · simp [main_failure, exitStatus]
  · simp [main_failure, formatV_plain e m hf he, Outcome.trace, logEntries_append, logEntries]
  · simp [main_failure, formatV_plain e m hf he, Outcome.trace, logEntries_append, logEntries]
  · simp

theorem main_failure_logs_and_exits_witness :
    exitStatus (main ⟨some (.plain "boom")⟩ []) = some 1 ∧
    "Failed to start the application: " ++ "boom"
      ∈ logEntries (main ⟨some (.plain "boom")⟩ []).trace ∧
    logEntries (main ⟨some (.plain "boom")⟩ []).trace
      = logEntries [] ++ ["Failed to start the application: " ++ "boom"] ∧
    "boom".data <:+: ("Failed to start the application: " ++ "boom").data :=
  ⟨(main_failure_logs_and_exits ⟨some (.plain "boom")⟩ (.plain "boom") rfl []).2.1,
   (main_failure_logs_and_exits ⟨some (.plain "boom")⟩ (.plain "boom") rfl []).2.2
     "boom" rfl rfl⟩

/-- C5 as stated fails: with `Start` returning the non-nil error `formattedBoom`, whose
`Error()` returns `boom`, the one entry `main` writes is
`Failed to start the application: FORMATTED`, which does not contain `boom`; the process
still ends with status 1. -/
theorem main_entry_lacks_message :
    formattedBoom.Error = .returns "boom" ∧
    logEntries (main ⟨some formattedBoom⟩ []).trace
      = ["Failed to start the application: FORMATTED"] ∧
    (∀ entry ∈ logEntries (main ⟨some formattedBoom⟩ []).trace,
      ¬ ("boom".data <:+: entry.data)) ∧
    exitStatus (main ⟨some formattedBoom⟩ []) = some 1 := by
  have h : logEntries (main ⟨some formattedBoom⟩ []).trace
      = ["Failed to start the application: FORMATTED"] := by
    rw [main_failure, formatV_formattedBoom]
    rfl
  refine ⟨rfl, h, ?_, ?_⟩
  · rw [h]
    decide
  · simp [main_failure, exitStatus]

/-- C6: when `Start` returns nil, `main` returns; it writes no log entry at all, so none
from `log.Fatalf`, and the process ends with status 0. -/
theorem main_success_exits_zero (application : App) (h : application.startResult = none)
    (t : Trace) :
    (∃ t1, main application t = .returned () t1) ∧
    logEntries (main application t).trace = logEntries t ∧
    exitStatus (main application t) = some 0 := by
  obtain ⟨r⟩ := application
  subst h
  simp [main_success, Outcome.trace, logEntries_append, logEntries, exitStatus]

theorem main_success_exits_zero_witness :
    (∃ t1, main ⟨none⟩ [] = .returned () t1) ∧
    logEntries (main ⟨none⟩ []).trace = logEntries [] ∧
    exitStatus (main ⟨none⟩ []) = some 0 :=
  main_success_exits_zero ⟨none⟩ rfl []

/-- C8: when `Start` returns a non-nil error, `main` ends the process with status 1 and
the events it adds to the trace hold neither a call of `Stop` nor a return from it.  The
body of `main` itself ends the process, before the `defer` statement, and its frame never
gets to run a deferred call. -/
theorem main_failure_never_calls_Stop (application : App)
    (h : application.startResult ≠ none) (t : Trace) :
    ∃ events : Trace,
      main application t = .exited 1 (t ++ events) ∧
      (mainBody application).run [] t = .exited 1 (t ++ events) ∧
      Event.stopCall ∉ events ∧ Event.stopReturn ∉ events := by
  obtain ⟨r⟩ := application
  cases r with
  | none => exact absurd rfl h
  | some e =>
    exact ⟨_, main_failure e t, mainBody_failure e t, by simp, by simp⟩

theorem main_failure_never_calls_Stop_witness :
    ∃ events : Trace,
      main ⟨some (.plain "boom")⟩ [] = .exited 1 ([] ++ events) ∧
      (mainBody ⟨some (.plain "boom")⟩).run [] [] = .exited 1 ([] ++ events) ∧
      Event.stopCall ∉ events ∧ Event.stopReturn ∉ events :=
  main_failure_never_calls_Stop ⟨some (.plain "boom")⟩ (by simp) []

/-- C9: in every run of `main` (from the empty trace, whatever `Start` returns) `Start`
is called exactly once and every call of `Stop` in the trace comes after the return of
`Start`.  When `Start` returns nil, `main` returns, `Stop` is called exactly once, and the
call of `Stop` and its return are the last two events of the trace, after the return of
`Start`. -/
theorem main_start_once_stop_after_start (application : App) :
    (main application []).trace.count .startCall = 1 ∧
    (∀ pre post : Trace, (main application []).trace = pre ++ .stopCall :: post →
      .startReturn application.startResult ∈ pre) ∧
    (application.startResult = none →
      (∃ t1, main application [] = .returned () t1) ∧
      (main application []).trace.count .stopCall = 1 ∧
      ∃ pre : Trace, (main application []).trace = pre ++ [.stopCall, .stopReturn] ∧
        .startReturn none ∈ pre ∧ Event.stopCall ∉ pre) := by
  obtain ⟨r⟩ := application
  cases r with
  | none =>
    have hm := main_success []
    simp only [List.nil_append] at hm
    refine ⟨by simp [hm, Outcome.trace], ?_, fun _ => ⟨⟨_, hm⟩, by simp [hm, Outcome.trace],
      [.startCall, .startReturn none], by simp [hm, Outcome.trace], by simp, by simp⟩⟩
    intro pre post hsplit
    rw [hm] at hsplit
    simp only [Outcome.trace] at hsplit
    rcases pre with _ | ⟨a, _ | ⟨b, _ | ⟨c, pre⟩⟩⟩ <;> simp at hsplit
    all_goals
      obtain ⟨-, hb, -⟩ := hsplit
      simp [← hb]
  | some e =>
    have hm := main_failure e []
    simp only [List.nil_append] at hm
    refine ⟨by simp [hm, Outcome.trace], ?_, fun h => by simp at h⟩
    intro pre post hsplit
    rw [hm] at hsplit
    simp only [Outcome.trace] at hsplit
    rcases pre with _ | ⟨a, _ | ⟨b, _ | ⟨c, pre⟩⟩⟩ <;> simp at hsplit

theorem main_start_once_stop_after_start_witness :
    (∃ t1, main ⟨none⟩ [] = .returned () t1) ∧
    (main ⟨none⟩ []).trace.count .stopCall = 1 ∧
    ∃ pre : Trace, (main ⟨none⟩ []).trace = pre ++ [.stopCall, .stopReturn] ∧
      .startReturn none ∈ pre ∧ Event.stopCall ∉ pre :=
  (main_start_once_stop_after_start ⟨none⟩).2.2 rfl

end MyGoApp
